import Mathlib

/-!
# Verification of the `line-bot-sdk-rs` webhook signature validator

This file embeds, in Lean, the signature-validation primitive of the
repository (`packages/line-bot-sdk-utils/src/signature.rs`) together with
the authentication gate of the example webhook handler
(`examples/echo-bot/src/main.rs`), and proves the specified properties of
`validate_signature`.

Modelling conventions:
* Machine bytes (`u8`) and 32-bit words are `Nat` with explicit reduction
  `% 256` / `% 2^32` where overflow matters.
* The external crates the source calls (`sha2`, `hmac`, `base64`) are
  embedded by their documented semantics: SHA-256 per FIPS 180-4, HMAC per
  RFC 2104, and the `base64` crate's `general_purpose::STANDARD` engine
  (standard alphabet, canonical padding required, trailing non-zero bits
  rejected).
* Fallible operations return `Option` / `Except`.
-/

namespace LineBotSdk

/-- Reduce a natural number to a 32-bit word (`u32` wrap-around). -/
def w32 (n : Nat) : Nat := n % 4294967296

/-- 32-bit right rotation by `r` of a 32-bit word. -/
def rotr32 (r x : Nat) : Nat := (x >>> r) ||| w32 (x <<< (32 - r))

/-- FIPS 180-4 `Ch(x,y,z) = (x ∧ y) ⊕ (¬x ∧ z)`; complement is xor with the
all-ones 32-bit word. -/
def ch32 (x y z : Nat) : Nat := (x &&& y) ^^^ ((x ^^^ 4294967295) &&& z)

/-- FIPS 180-4 `Maj(x,y,z)`. -/
def maj32 (x y z : Nat) : Nat := (x &&& y) ^^^ (x &&& z) ^^^ (y &&& z)

/-- FIPS 180-4 `Σ₀`. -/
def bigSigma0 (x : Nat) : Nat := rotr32 2 x ^^^ rotr32 13 x ^^^ rotr32 22 x

/-- FIPS 180-4 `Σ₁`. -/
def bigSigma1 (x : Nat) : Nat := rotr32 6 x ^^^ rotr32 11 x ^^^ rotr32 25 x

/-- FIPS 180-4 `σ₀`. -/
def smallSigma0 (x : Nat) : Nat := rotr32 7 x ^^^ rotr32 18 x ^^^ (x >>> 3)

/-- FIPS 180-4 `σ₁`. -/
def smallSigma1 (x : Nat) : Nat := rotr32 17 x ^^^ rotr32 19 x ^^^ (x >>> 10)

/-- The 64 SHA-256 round constants (fractional parts of the cube roots of the
first 64 primes). -/
def K256 : List Nat :=
  [1116352408, 1899447441, 3049323471, 3921009573, 961987163, 1508970993,
   2453635748, 2870763221, 3624381080, 310598401, 607225278, 1426881987,
   1925078388, 2162078206, 2614888103, 3248222580, 3835390401, 4022224774,
   264347078, 604807628, 770255983, 1249150122, 1555081692, 1996064986,
   2554220882, 2821834349, 2952996808, 3210313671, 3336571891, 3584528711,
   113926993, 338241895, 666307205, 773529912, 1294757372, 1396182291,
   1695183700, 1986661051, 2177026350, 2456956037, 2730485921, 2820302411,
   3259730800, 3345764771, 3516065817, 3600352804, 4094571909, 275423344,
   430227734, 506948616, 659060556, 883997877, 958139571, 1322822218,
   1537002063, 1747873779, 1955562222, 2024104815, 2227730452, 2361852424,
   2428436474, 2756734187, 3204031479, 3329325298]

/-- The SHA-256 working state: eight 32-bit words. -/
structure Hash8 where
  a : Nat
  b : Nat
  c : Nat
  d : Nat
  e : Nat
  f : Nat
  g : Nat
  h : Nat

/-- The SHA-256 initial hash value (fractional parts of the square roots of the
first 8 primes). -/
def initH : Hash8 :=
  ⟨1779033703, 3144134277, 1013904242, 2773480762,
   1359893119, 2600822924, 528734635, 1541459225⟩

/-- Big-endian 8-byte encoding of a 64-bit value (the SHA-256 length field). -/
def be64 (n : Nat) : List Nat :=
  [n >>> 56 % 256, n >>> 48 % 256, n >>> 40 % 256, n >>> 32 % 256,
   n >>> 24 % 256, n >>> 16 % 256, n >>> 8 % 256, n % 256]

/-- SHA-256 message padding: append `0x80`, zero bytes up to 56 mod 64, and the
big-endian 64-bit message bit length. -/
def sha256Pad (msg : List Nat) : List Nat :=
  msg ++ [128] ++ List.replicate ((119 - msg.length % 64) % 64) 0
      ++ be64 ((8 * msg.length) % 18446744073709551616)

/-- Split a list into chunks of `n` elements; `fuel` bounds the recursion and is
instantiated with the list length (sufficient whenever `1 ≤ n`). -/
def chunksOf (fuel n : Nat) (l : List Nat) : List (List Nat) :=
  match fuel with
  | 0 => []
  | fuel' + 1 =>
    match l with
    | [] => []
    | _ :: _ => l.take n :: chunksOf fuel' n (l.drop n)

/-- Pack four bytes into a big-endian 32-bit word. -/
def be32pack (b0 b1 b2 b3 : Nat) : Nat :=
  b0 % 256 * 16777216 + b1 % 256 * 65536 + b2 % 256 * 256 + b3 % 256

/-- The first 16 words of the message schedule: a 64-byte block read as
big-endian 32-bit words. -/
def blockWords : List Nat → List Nat
  | b0 :: b1 :: b2 :: b3 :: rest => be32pack b0 b1 b2 b3 :: blockWords rest
  | _ => []

/-- Extend the message schedule by `fuel` further words
(`w[i] = σ₁(w[i-2]) + w[i-7] + σ₀(w[i-15]) + w[i-16]` mod 2³²). -/
def extendSchedule (fuel : Nat) (w : List Nat) : List Nat :=
  match fuel with
  | 0 => w
  | fuel' + 1 =>
    let i := w.length
    extendSchedule fuel'
      (w ++ [w32 (smallSigma1 (w.getD (i - 2) 0) + w.getD (i - 7) 0 +
                  smallSigma0 (w.getD (i - 15) 0) + w.getD (i - 16) 0)])

/-- One SHA-256 compression round, for round constant `kw.1` and schedule word
`kw.2`. -/
def roundStep (s : Hash8) (kw : Nat × Nat) : Hash8 :=
  let t1 := w32 (s.h + bigSigma1 s.e + ch32 s.e s.f s.g + kw.1 + kw.2)
  let t2 := w32 (bigSigma0 s.a + maj32 s.a s.b s.c)
  ⟨w32 (t1 + t2), s.a, s.b, s.c, w32 (s.d + t1), s.e, s.f, s.g⟩

/-- Process one 64-byte block: 64 compression rounds, then add the result to
the incoming state, word-wise mod 2³². -/
def compressBlock (s : Hash8) (block : List Nat) : Hash8 :=
  let w := extendSchedule 48 (blockWords block)
  let t := (K256.zip w).foldl roundStep s
  ⟨w32 (s.a + t.a), w32 (s.b + t.b), w32 (s.c + t.c), w32 (s.d + t.d),
   w32 (s.e + t.e), w32 (s.f + t.f), w32 (s.g + t.g), w32 (s.h + t.h)⟩

/-- Big-endian 4-byte encoding of a 32-bit word. -/
def wordBytes (x : Nat) : List Nat :=
  [x / 16777216 % 256, x / 65536 % 256, x / 256 % 256, x % 256]

/-- SHA-256 of a byte sequence, per FIPS 180-4 (the semantics of the `sha2`
crate the source uses); the 32-byte digest, big-endian per word. -/
def sha256 (msg : List Nat) : List Nat :=
  let padded := sha256Pad msg
  let s := (chunksOf padded.length 64 padded).foldl compressBlock initH
  wordBytes s.a ++ wordBytes s.b ++ wordBytes s.c ++ wordBytes s.d ++
  wordBytes s.e ++ wordBytes s.f ++ wordBytes s.g ++ wordBytes s.h

/-- HMAC-SHA256 per RFC 2104 (the semantics of `Hmac<Sha256>` from the `hmac`
crate): keys longer than the 64-byte block are pre-hashed, the key is
zero-padded to 64 bytes, and the digest is
`H((k ⊕ opad) ∥ H((k ⊕ ipad) ∥ msg))`. -/
def hmacSha256 (key msg : List Nat) : List Nat :=
  let k0 := if 64 < key.length then sha256 key else key
  let kp := k0 ++ List.replicate (64 - k0.length) 0
  let inner := sha256 (kp.map (fun b => b % 256 ^^^ 54) ++ msg)
  sha256 (kp.map (fun b => b % 256 ^^^ 92) ++ inner)

/-! ## Base64 (the `base64` crate's `general_purpose::STANDARD` engine) -/

/-- The value of a character in the standard base64 alphabet, `none` for any
character outside it (so in particular for `-`, `_` and `=`). -/
def b64Index (c : Char) : Option Nat :=
  if 'A' ≤ c ∧ c ≤ 'Z' then some (c.toNat - 65)
  else if 'a' ≤ c ∧ c ≤ 'z' then some (c.toNat - 97 + 26)
  else if '0' ≤ c ∧ c ≤ '9' then some (c.toNat - 48 + 52)
  else if c = '+' then some 62
  else if c = '/' then some 63
  else none

/-- The standard-alphabet character of a 6-bit value. -/
def b64Char (v : Nat) : Char :=
  if v < 26 then Char.ofNat (65 + v)
  else if v < 52 then Char.ofNat (97 + (v - 26))
  else if v < 62 then Char.ofNat (48 + (v - 52))
  else if v = 62 then '+'
  else '/'

/-- Standard padded base64 encoding of a byte sequence. -/
def base64Encode : List Nat → List Char
  | [] => []
  | [b1] => [b64Char (b1 / 4), b64Char (b1 % 4 * 16), '=', '=']
  | [b1, b2] =>
    [b64Char (b1 / 4), b64Char (b1 % 4 * 16 + b2 / 16), b64Char (b2 % 16 * 4), '=']
  | b1 :: b2 :: b3 :: rest =>
    b64Char (b1 / 4) :: b64Char (b1 % 4 * 16 + b2 / 16) ::
    b64Char (b2 % 16 * 4 + b3 / 64) :: b64Char (b3 % 64) :: base64Encode rest

/-- Decode a final four-character base64 chunk under the `STANDARD` engine's
rules: canonical `=` padding only at the end, and the unused low bits of the
last data character must be zero (`decode_allow_trailing_bits = false`). -/
def decodeLastChunk (c1 c2 c3 c4 : Char) : Option (List Nat) :=
  if c3 = '=' then
    if c4 = '=' then
      match b64Index c1, b64Index c2 with
      | some v1, some v2 =>
        if v2 % 16 = 0 then some [v1 * 4 + v2 / 16] else none
      | _, _ => none
    else none
  else if c4 = '=' then
    match b64Index c1, b64Index c2, b64Index c3 with
    | some v1, some v2, some v3 =>
      if v3 % 4 = 0 then
        some [v1 * 4 + v2 / 16, v2 % 16 * 16 + v3 / 4]
      else none
    | _, _, _ => none
  else
    match b64Index c1, b64Index c2, b64Index c3, b64Index c4 with
    | some v1, some v2, some v3, some v4 =>
      some [v1 * 4 + v2 / 16, v2 % 16 * 16 + v3 / 4, v3 % 4 * 64 + v4]
    | _, _, _, _ => none

/-- Decode under the `base64` crate's `general_purpose::STANDARD` engine:
standard alphabet, input length a multiple of four, canonical padding
required, non-zero trailing bits rejected. `none` models a `DecodeError`. -/
def base64Decode : List Char → Option (List Nat)
  | [] => some []
  | c1 :: c2 :: c3 :: c4 :: rest =>
    if rest = [] then decodeLastChunk c1 c2 c3 c4
    else
      match b64Index c1, b64Index c2, b64Index c3, b64Index c4,
            base64Decode rest with
      | some v1, some v2, some v3, some v4, some bs =>
        some ((v1 * 4 + v2 / 16) :: (v2 % 16 * 16 + v3 / 4) ::
              (v3 % 4 * 64 + v4) :: bs)
      | _, _, _, _, _ => none
  | _ => none

/-! ## The signature validator (`signature.rs`) -/

/-- UTF-8 encoding of a Unicode code point, as byte values. -/
def utf8Bytes (n : Nat) : List Nat :=
  if n < 128 then [n]
  else if n < 2048 then [192 + n / 64, 128 + n % 64]
  else if n < 65536 then [224 + n / 4096, 128 + n / 64 % 64, 128 + n % 64]
  else [240 + n / 262144, 128 + n / 4096 % 64, 128 + n / 64 % 64, 128 + n % 64]

/-- The bytes of a string (Rust `str::as_bytes`): UTF-8 encoding of its
characters. -/
def strBytes (s : String) : List Nat :=
  (s.data.map (fun c => utf8Bytes c.toNat)).flatten

/-- `SignatureValidationError` from `signature.rs`. -/
inductive SignatureValidationError where
  /-- The signature format is invalid (not valid base64). -/
  | InvalidSignatureFormat : SignatureValidationError
  /-- The channel secret key is invalid. -/
  | InvalidKey : SignatureValidationError
deriving DecidableEq

/-- `Hmac::<Sha256>::new_from_slice` from the `hmac` crate: HMAC accepts keys
of any length (long keys are pre-hashed, short keys zero-padded), so key
initialization succeeds for every key slice; the `Result` it returns is
always `Ok`, modelled as `some` of the key bytes. -/
def hmacNewFromSlice (key : List Nat) : Option (List Nat) := some key

/-- The accumulator loop of `validate_signature` (lines 70–74 of
`signature.rs`): fold over the zipped byte pairs, OR-ing the XOR of each pair
into a running `result`, starting from `0`. -/
def ctAcc (xs ys : List Nat) : Nat :=
  (xs.zip ys).foldl (fun r p => r ||| (p.1 ^^^ p.2)) 0

/-- `validate_signature` from `signature.rs`: decode the base64 signature
(failure ↦ `InvalidSignatureFormat`), key the MAC with the channel secret
(failure ↦ `InvalidKey`), compute HMAC-SHA256 of the body, return
`Ok(false)` on a length mismatch, and otherwise `Ok` of the zero test of the
XOR-OR accumulator. -/
def validate_signature (body : List Nat) (channel_secret : String)
    (signature : String) : Except SignatureValidationError Bool :=
  match base64Decode signature.data with
  | none => .error .InvalidSignatureFormat
  | some expected_signature =>
    match hmacNewFromSlice (strBytes channel_secret) with
    | none => .error .InvalidKey
    | some key =>
      let computed_signature := hmacSha256 key body
      if expected_signature.length ≠ computed_signature.length then .ok false
      else .ok (ctAcc expected_signature computed_signature == 0)

/-- State-threading form of `validate_signature`: the Rust function performs
no I/O and reads or writes no ambient state, so its embedding with an
explicit world parameter returns the world unchanged and computes the result
from the three inputs alone. -/
def validate_signature_st {σ : Type} (world : σ) (body : List Nat)
    (channel_secret : String) (signature : String) :
    σ × Except SignatureValidationError Bool :=
  (world, validate_signature body channel_secret signature)

/-- Instrumented form of the accumulator loop of `validate_signature`: the
same fold, additionally counting one step per iteration. The first component
is the accumulator, the second the number of loop iterations executed. -/
def ctAccSteps (xs ys : List Nat) : Nat × Nat :=
  (xs.zip ys).foldl (fun rp p => (rp.1 ||| (p.1 ^^^ p.2), rp.2 + 1)) (0, 0)

/-! ## The webhook handler's authentication gate (`echo-bot/src/main.rs`) -/

/-- The outcome of the authentication part of `webhook_handler` (lines 56–80
of `echo-bot/src/main.rs`): an early HTTP response produced before the body
is parsed or any reply dispatched, or fall-through to the parse-and-reply
step. -/
inductive HandlerOutcome where
  /-- An early response with this HTTP status code, sent before body parsing. -/
  | respond (status : Nat) : HandlerOutcome
  /-- Signature valid: continue to parse the body and dispatch replies. -/
  | proceed : HandlerOutcome
deriving DecidableEq

/-- `HeaderValue::to_str` from the `http` crate: succeeds iff every byte of
the header value is visible ASCII, space or horizontal tab, and then yields
those bytes as a string. -/
def headerValueToStr (bytes : List Nat) : Option String :=
  if bytes.all (fun b => b = 9 ∨ (32 ≤ b ∧ b < 127)) then
    some (String.mk (bytes.map Char.ofNat))
  else none

/-- The authentication gate of `webhook_handler`: a missing `x-line-signature`
header or a non-string header value yields `400 BAD_REQUEST`; then
`validate_signature` yields `401 UNAUTHORIZED` on `Ok(false)`,
`400 BAD_REQUEST` on any error, and fall-through on `Ok(true)`. Body parsing
and reply dispatch happen only in the `proceed` branch. -/
def webhook_handler_auth (header : Option (List Nat)) (body : List Nat)
    (channel_secret : String) : HandlerOutcome :=
  match header with
  | none => .respond 400
  | some hb =>
    match headerValueToStr hb with
    | none => .respond 400
    | some s =>
      match validate_signature body channel_secret s with
      | .ok true => .proceed
      | .ok false => .respond 401
      | .error _ => .respond 400

/-- Flip bit `j` of byte `i` of a byte sequence (the tampering operation of
the spec's bit-flip property). -/
def flipBit (bytes : List Nat) (i j : Nat) : List Nat :=
  bytes.set i (bytes.getD i 0 ^^^ 2 ^ j)

/-! ## Digest shape lemmas -/

/-- A SHA-256 digest is 32 bytes long. -/
theorem sha256_length (msg : List Nat) : (sha256 msg).length = 32 := by
  simp [sha256, wordBytes]

/-- Every SHA-256 digest byte is below 256. -/
theorem sha256_lt (msg : List Nat) : ∀ b ∈ sha256 msg, b < 256 := by
  intro b hb
  simp only [sha256, wordBytes, List.mem_append, List.mem_cons,
    List.not_mem_nil, or_false] at hb
  omega

/-- An HMAC-SHA256 digest is 32 bytes long. -/
theorem hmacSha256_length (key msg : List Nat) :
    (hmacSha256 key msg).length = 32 := by
  rw [hmacSha256]
  exact sha256_length _

/-- Every HMAC-SHA256 digest byte is below 256. -/
theorem hmacSha256_lt (key msg : List Nat) : ∀ b ∈ hmacSha256 key msg, b < 256 := by
  rw [hmacSha256]
  exact sha256_lt _

/-! ## Bitwise helper lemmas -/

/-- A bitwise OR is zero exactly when both operands are. -/
theorem lor_eq_zero_iff (a b : Nat) : a ||| b = 0 ↔ a = 0 ∧ b = 0 := by
  constructor
  · intro h
    refine ⟨Nat.eq_of_testBit_eq fun i => ?_, Nat.eq_of_testBit_eq fun i => ?_⟩ <;>
    · have := congrArg (fun n => Nat.testBit n i) h
      simp only [Nat.testBit_lor, Nat.zero_testBit, Bool.or_eq_false_iff] at this ⊢
      tauto
  · rintro ⟨rfl, rfl⟩
    rfl

/-- The XOR-OR accumulator, started from `r`, ends at zero exactly when `r`
was zero and every zipped pair agrees. -/
theorem ctFold_eq_zero_iff (l : List (Nat × Nat)) (r : Nat) :
    l.foldl (fun r p => r ||| (p.1 ^^^ p.2)) r = 0 ↔
      r = 0 ∧ ∀ p ∈ l, p.1 = p.2 := by
  induction l generalizing r with
  | nil => simp
  | cons p l ih =>
    rw [List.foldl_cons, ih, lor_eq_zero_iff, Nat.xor_eq_zero]
    constructor
    · rintro ⟨⟨hr, hp⟩, hl⟩
      refine ⟨hr, fun q hq => ?_⟩
      rcases List.mem_cons.mp hq with rfl | hq
      · exact hp
      · exact hl q hq
    · rintro ⟨hr, hall⟩
      exact ⟨⟨hr, hall p (List.mem_cons_self p l)⟩,
        fun q hq => hall q (List.mem_cons_of_mem _ hq)⟩

/-- For equal-length lists, all zipped pairs agree exactly when the lists are
equal. -/
theorem zip_pairs_eq_iff : ∀ (xs ys : List Nat), xs.length = ys.length →
    ((∀ p ∈ xs.zip ys, p.1 = p.2) ↔ xs = ys) := by
  intro xs
  induction xs with
  | nil =>
    intro ys h
    cases ys with
    | nil => simp
    | cons y ys => simp at h
  | cons x xs ih =>
    intro ys h
    cases ys with
    | nil => simp at h
    | cons y ys =>
      have hlen : xs.length = ys.length := by simpa using h
      have hrec := ih ys hlen
      simp only [List.zip_cons_cons, List.mem_cons, List.cons.injEq]
      constructor
      · intro hp
        refine ⟨hp (x, y) (Or.inl rfl), hrec.mp fun q hq => hp q (Or.inr hq)⟩
      · rintro ⟨rfl, rfl⟩
        intro p hp
        rcases hp with rfl | hp
        · rfl
        · exact (hrec.mpr rfl) p hp

/-- For equal-length lists, the accumulator of the constant-time loop is zero
exactly when the lists are byte-for-byte equal. -/
theorem ctAcc_eq_zero_iff (xs ys : List Nat) (h : xs.length = ys.length) :
    ctAcc xs ys = 0 ↔ xs = ys := by
  rw [ctAcc, ctFold_eq_zero_iff]
  simp only [true_and]
  exact zip_pairs_eq_iff xs ys h

/-! ## Base64 lemmas -/

/-- Decoding a standard-alphabet character recovers its 6-bit value. -/
theorem b64Index_b64Char : ∀ v : Nat, v < 64 → b64Index (b64Char v) = some v := by
  decide

/-- No standard-alphabet character is the padding character. -/
theorem b64Char_ne_pad : ∀ v : Nat, v < 64 → b64Char v ≠ '=' := by
  decide

/-- Encoding a non-empty byte sequence yields a non-empty character
sequence. -/
theorem base64Encode_ne_nil : ∀ (l : List Nat), l ≠ [] → base64Encode l ≠ []
  | [], h => absurd rfl h
  | [_], _ => by simp [base64Encode]
  | [_, _], _ => by simp [base64Encode]
  | _ :: _ :: _ :: _, _ => by simp [base64Encode]

/-- Round trip: decoding the standard padded encoding of a byte sequence
recovers the bytes. -/
theorem base64Decode_encode : ∀ (bs : List Nat), (∀ b ∈ bs, b < 256) →
    base64Decode (base64Encode bs) = some bs
  | [], _ => rfl
  | [b], h => by
    have hb : b < 256 := h b (by simp)
    have h1 := b64Index_b64Char (b / 4) (by omega)
    have h2 := b64Index_b64Char (b % 4 * 16) (by omega)
    simp [base64Encode, base64Decode, decodeLastChunk, h1, h2]
    omega
  | [b1, b2], h => by
    have hb1 : b1 < 256 := h b1 (by simp)
    have hb2 : b2 < 256 := h b2 (by simp)
    have h1 := b64Index_b64Char (b1 / 4) (by omega)
    have h2 := b64Index_b64Char (b1 % 4 * 16 + b2 / 16) (by omega)
    have h3 := b64Index_b64Char (b2 % 16 * 4) (by omega)
    have n3 := b64Char_ne_pad (b2 % 16 * 4) (by omega)
    simp [base64Encode, base64Decode, decodeLastChunk, h1, h2, h3, n3]
    omega
  | b1 :: b2 :: b3 :: rest, h => by
    have hb1 : b1 < 256 := h b1 (by simp)
    have hb2 : b2 < 256 := h b2 (by simp)
    have hb3 : b3 < 256 := h b3 (by simp)
    have h1 := b64Index_b64Char (b1 / 4) (by omega)
    have h2 := b64Index_b64Char (b1 % 4 * 16 + b2 / 16) (by omega)
    have h3 := b64Index_b64Char (b2 % 16 * 4 + b3 / 64) (by omega)
    have h4 := b64Index_b64Char (b3 % 64) (by omega)
    have ih := base64Decode_encode rest (fun b hb => h b (by simp [hb]))
    by_cases hrest : rest = []
    · subst hrest
      have n3 := b64Char_ne_pad (b2 % 16 * 4 + b3 / 64) (by omega)
      have n4 := b64Char_ne_pad (b3 % 64) (by omega)
      simp [base64Encode, base64Decode, decodeLastChunk, h1, h2, h3, h4, n3, n4]
      omega
    · have hne := base64Encode_ne_nil rest hrest
      simp [base64Encode, base64Decode, h1, h2, h3, h4, hne, ih]
      omega

/-! ## `validate_signature` helper lemmas -/

/-- When the claimed signature fails to decode, `validate_signature` reports
`InvalidSignatureFormat` without any comparison. -/
theorem validate_of_decode_none (body : List Nat) (cs sig : String)
    (h : base64Decode sig.data = none) :
    validate_signature body cs sig = .error .InvalidSignatureFormat := by
  simp [validate_signature, h]

/-- When the claimed signature decodes to bytes of a length other than 32,
`validate_signature` returns `Ok(false)`. -/
theorem validate_of_length_ne (body : List Nat) (cs sig : String)
    (bs : List Nat) (h : base64Decode sig.data = some bs)
    (hl : bs.length ≠ 32) :
    validate_signature body cs sig = .ok false := by
  rw [validate_signature, h]
  show (if _ ≠ _ then _ else _) = _
  rw [if_pos]
  rw [hmacSha256_length]
  exact hl

/-- When the claimed signature decodes to 32 bytes, `validate_signature`
returns `Ok` of the zero test of the XOR-OR accumulator against the
HMAC-SHA256 digest. -/
theorem validate_of_length_eq (body : List Nat) (cs sig : String)
    (bs : List Nat) (h : base64Decode sig.data = some bs)
    (hl : bs.length = 32) :
    validate_signature body cs sig =
      .ok (ctAcc bs (hmacSha256 (strBytes cs) body) == 0) := by
  rw [validate_signature, h]
  show (if _ ≠ _ then _ else _) = _
  rw [if_neg]
  rw [hmacSha256_length]
  omega

/-- When the claimed signature decodes to 32 bytes, `validate_signature`
accepts exactly when the decoded bytes equal the digest byte-for-byte. -/
theorem validate_ok_true_iff (body : List Nat) (cs sig : String)
    (bs : List Nat) (h : base64Decode sig.data = some bs)
    (hl : bs.length = 32) :
    validate_signature body cs sig = .ok true ↔
      bs = hmacSha256 (strBytes cs) body := by
  rw [validate_of_length_eq body cs sig bs h hl]
  rw [← ctAcc_eq_zero_iff bs (hmacSha256 (strBytes cs) body)
        (by rw [hl, hmacSha256_length])]
  constructor
  · intro hok
    have hbeq : (ctAcc bs (hmacSha256 (strBytes cs) body) == 0) = true :=
      by injection hok
    exact Nat.eq_of_beq_eq_true (by simpa using hbeq)
  · intro hz
    rw [hz]
    rfl

/-- `validate_signature` never reports `InvalidKey`: key initialization
succeeds for every channel secret. -/
theorem validate_ne_invalid_key (body : List Nat) (cs sig : String) :
    validate_signature body cs sig ≠ .error .InvalidKey := by
  rw [validate_signature]
  cases hd : base64Decode sig.data with
  | none => simp
  | some bs =>
    show (if _ ≠ _ then _ else _) ≠ _
    split <;> simp

/-! ## Instrumented comparison-loop lemmas -/

/-- The instrumented loop from any starting accumulator pair: the accumulator
component is the plain fold and the step count grows by exactly the list
length. -/
theorem ctFoldSteps (l : List (Nat × Nat)) (r n : Nat) :
    l.foldl (fun rp p => (rp.1 ||| (p.1 ^^^ p.2), rp.2 + 1)) (r, n) =
      (l.foldl (fun r p => r ||| (p.1 ^^^ p.2)) r, n + l.length) := by
  induction l generalizing r n with
  | nil => simp
  | cons p l ih =>
    rw [List.foldl_cons, List.foldl_cons, ih]
    simp only [List.length_cons, Prod.mk.injEq, true_and]
    omega

/-- The instrumented comparison loop computes the same accumulator as the
plain loop, and its iteration count is exactly the number of zipped pairs —
a function of the input lengths only. -/
theorem ctAccSteps_eq (xs ys : List Nat) :
    ctAccSteps xs ys = (ctAcc xs ys, min xs.length ys.length) := by
  rw [ctAccSteps, ctAcc, ctFoldSteps]
  simp [List.length_zip]

/-! ## Claim theorems -/

/-- C1: for every payload (including the empty one) and every secret,
validating the standard-base64 encoding of the HMAC-SHA256 digest of the
payload keyed by the secret returns `Ok(true)`. -/
theorem spec_c1_valid_signature_accepted (body : List Nat) (cs : String) :
    validate_signature body cs
      (String.mk (base64Encode (hmacSha256 (strBytes cs) body))) = .ok true := by
  have hd : base64Decode
      (String.mk (base64Encode (hmacSha256 (strBytes cs) body))).data =
      some (hmacSha256 (strBytes cs) body) :=
    base64Decode_encode _ (hmacSha256_lt _ _)
  exact (validate_ok_true_iff body cs _ _ hd (hmacSha256_length _ _)).mpr rfl

/-- C2: for every payload, secret, and claimed signature decoding to bytes of
the digest length, `validate_signature` returns `Ok` of the zero test of the
running XOR-OR accumulator, and accepts exactly when the decoded bytes equal
the computed digest byte-for-byte. -/
theorem spec_c2_decoded_compare (body : List Nat) (cs sig : String)
    (bs : List Nat) (h : base64Decode sig.data = some bs)
    (hl : bs.length = 32) :
    validate_signature body cs sig =
      .ok (ctAcc bs (hmacSha256 (strBytes cs) body) == 0) ∧
    (validate_signature body cs sig = .ok true ↔
      bs = hmacSha256 (strBytes cs) body) :=
  ⟨validate_of_length_eq body cs sig bs h hl,
   validate_ok_true_iff body cs sig bs h hl⟩

/-- C3: a claimed signature that does not decode under standard padded base64
makes `validate_signature` return `Err(InvalidSignatureFormat)` (never
`Ok(false)`); the URL-safe alphabet characters `-` and `_` are outside the
accepted alphabet, and the spec's example `"not-valid-base64!!"` does not
decode. -/
theorem spec_c3_malformed_rejected :
    (∀ (body : List Nat) (cs sig : String), base64Decode sig.data = none →
      validate_signature body cs sig = .error .InvalidSignatureFormat) ∧
    b64Index '-' = none ∧ b64Index '_' = none ∧
    base64Decode "not-valid-base64!!".data = none :=
  ⟨validate_of_decode_none, by decide, by decide, by decide⟩

/-- C4: the byte comparison is constant-time in the embedded sense: the
instrumented comparison loop executes a number of iterations that depends
only on the lengths of the two byte sequences — not on their contents, so
not on where they first differ — and its accumulator equals that of the
loop `validate_signature` runs, which has no early exit. -/
theorem spec_c4_comparison_constant_time (xs ys xs2 ys2 : List Nat)
    (hx : xs.length = xs2.length) (hy : ys.length = ys2.length) :
    (ctAccSteps xs ys).2 = (ctAccSteps xs2 ys2).2 ∧
    (ctAccSteps xs ys).1 = ctAcc xs ys := by
  constructor
  · rw [ctAccSteps_eq, ctAccSteps_eq, hx, hy]
  · rw [ctAccSteps_eq]

/-- C5: a claimed signature that decodes to bytes whose length differs from
the computed HMAC-SHA256 digest's length yields `Ok(false)` — a normal
negative result, not an error. -/
theorem spec_c5_length_mismatch_false (body : List Nat) (cs sig : String)
    (bs : List Nat) (h : base64Decode sig.data = some bs)
    (hl : bs.length ≠ (hmacSha256 (strBytes cs) body).length) :
    validate_signature body cs sig = .ok false :=
  validate_of_length_ne body cs sig bs h (by rwa [hmacSha256_length] at hl)

/-- C6: the webhook handler's authentication gate maps a missing
`x-line-signature` header to a 400 response, a non-string header value to a
400 response, a `validate_signature` outcome of `Ok(false)` to a 401
response, and a signature-format error to a 400 response — in every case
before the body-parsing / reply-dispatch step (`proceed`) is reached. -/
theorem spec_c6_handler_status_mapping (body : List Nat) (cs : String) :
    webhook_handler_auth none body cs = .respond 400 ∧
    (∀ (hb : List Nat) (s : String), headerValueToStr hb = some s →
      validate_signature body cs s = .ok false →
      webhook_handler_auth (some hb) body cs = .respond 401) ∧
    (∀ (hb : List Nat) (s : String) (e : SignatureValidationError),
      headerValueToStr hb = some s →
      validate_signature body cs s = .error e →
      webhook_handler_auth (some hb) body cs = .respond 400) ∧
    (∀ (hb : List Nat), headerValueToStr hb = none →
      webhook_handler_auth (some hb) body cs = .respond 400) := by
  refine ⟨rfl, ?_, ?_, ?_⟩
  · intro hb s hs hv
    simp [webhook_handler_auth, hs, hv]
  · intro hb s e hs hv
    simp [webhook_handler_auth, hs, hv]
  · intro hb hn
    simp [webhook_handler_auth, hn]

/-- C7: flipping any single bit of the decoded bytes of a valid signature and
re-encoding makes `validate_signature` return `Ok(false)`, for every payload
and secret. -/
theorem spec_c7_bit_flip_rejected (body : List Nat) (cs : String) (i j : Nat)
    (hi : i < 32) (hj : j < 8) :
    validate_signature body cs
      (String.mk (base64Encode (flipBit (hmacSha256 (strBytes cs) body) i j)))
      = .ok false := by
  set d := hmacSha256 (strBytes cs) body with hd
  have hdlen : d.length = 32 := hmacSha256_length _ _
  have hdlt : ∀ b ∈ d, b < 256 := hmacSha256_lt _ _
  have hil : i < d.length := by omega
  have hlen : (flipBit d i j).length = 32 := by
    rw [flipBit, List.length_set, hdlen]
  have hflt : ∀ b ∈ flipBit d i j, b < 256 := by
    intro b hb
    rcases List.mem_or_eq_of_mem_set hb with hb | rfl
    · exact hdlt b hb
    · have h1 : d.getD i 0 < 256 := by
        rw [List.getD_eq_getElem d 0 hil]
        exact hdlt _ (List.getElem_mem hil)
      have h2 : (2 : Nat) ^ j < 256 := by
        calc (2 : Nat) ^ j ≤ 2 ^ 7 := Nat.pow_le_pow_right (by omega) (by omega)
        _ < 256 := by omega
      have := Nat.xor_lt_two_pow (n := 8) (by simpa using h1) (by simpa using h2)
      simpa using this
  have hdec : base64Decode (String.mk (base64Encode (flipBit d i j))).data =
      some (flipBit d i j) :=
    base64Decode_encode _ hflt
  have hne : flipBit d i j ≠ d := by
    intro he
    have hset : (flipBit d i j)[i]? = some (d.getD i 0 ^^^ 2 ^ j) := by
      rw [flipBit]
      exact List.getElem?_set_self hil
    have hgd : d[i]? = some (d.getD i 0) := by
      rw [List.getD_eq_getElem?_getD]
      cases hq : d[i]? with
      | none => rw [List.getElem?_eq_none_iff] at hq; omega
      | some y => rfl
    rw [he, hgd] at hset
    have he2 : d.getD i 0 = d.getD i 0 ^^^ 2 ^ j := by injection hset
    have h0 : d.getD i 0 ^^^ (d.getD i 0 ^^^ 2 ^ j) = 0 := Nat.xor_eq_zero.mpr he2
    rw [← Nat.xor_assoc, Nat.xor_self, Nat.zero_xor] at h0
    exact absurd h0 (Nat.pos_iff_ne_zero.mp (Nat.pos_pow_of_pos j (by omega)))
  rw [validate_of_length_eq body cs _ _ hdec hlen]
  have hcz : ctAcc (flipBit d i j) d ≠ 0 := fun h0 =>
    hne ((ctAcc_eq_zero_iff _ _ (by rw [hlen, hdlen])).mp h0)
  have : (ctAcc (flipBit d i j) d == 0) = false := beq_eq_false_iff_ne.mpr hcz
  rw [this]

/-- C8: `validate_signature` is deterministic and pure: its state-threaded
form returns the ambient world unchanged, its result does not depend on the
world, and it coincides with the plain function of the three inputs. -/
theorem spec_c8_deterministic_pure {σ : Type} (w w2 : σ) (body : List Nat)
    (cs sig : String) :
    (validate_signature_st w body cs sig).1 = w ∧
    (validate_signature_st w body cs sig).2 =
      (validate_signature_st w2 body cs sig).2 ∧
    (validate_signature_st w body cs sig).2 =
      validate_signature body cs sig :=
  ⟨rfl, rfl, rfl⟩

/-- C9: the `InvalidKey` branch is unreachable: HMAC key initialization
succeeds for every key slice (including the empty one), `validate_signature`
never returns `Err(InvalidKey)`, and on every syntactically valid base64
signature it returns `Ok(_)`. -/
theorem spec_c9_invalid_key_unreachable :
    (∀ key : List Nat, hmacNewFromSlice key = some key) ∧
    (∀ (body : List Nat) (cs sig : String),
      validate_signature body cs sig ≠ .error .InvalidKey) ∧
    (∀ (body : List Nat) (cs sig : String) (bs : List Nat),
      base64Decode sig.data = some bs →
      ∃ r, validate_signature body cs sig = .ok r) := by
  refine ⟨fun _ => rfl, validate_ne_invalid_key, ?_⟩
  intro body cs sig bs h
  by_cases hl : bs.length = 32
  · exact ⟨_, validate_of_length_eq body cs sig bs h hl⟩
  · exact ⟨false, validate_of_length_ne body cs sig bs h hl⟩

/-- C10: a claimed signature that decodes to bytes of any length other than
32 — the SHA-256 digest length — yields `Ok(false)` for every payload and
secret; in particular the empty signature string decodes to the empty byte
string and yields `Ok(false)`. -/
theorem spec_c10_wrong_length_false :
    (∀ msg : List Nat, (sha256 msg).length = 32) ∧
    (∀ (body : List Nat) (cs sig : String) (bs : List Nat),
      base64Decode sig.data = some bs → bs.length ≠ 32 →
      validate_signature body cs sig = .ok false) ∧
    (∀ (body : List Nat) (cs : String),
      validate_signature body cs "" = .ok false) := by
  refine ⟨sha256_length, ?_, ?_⟩
  · intro body cs sig bs h hl
    exact validate_of_length_ne body cs sig bs h hl
  · intro body cs
    exact validate_of_length_ne body cs "" [] rfl (by decide)

/-! ## Witnesses -/

/-- Witness for C2 at a concrete 44-character all-`A` signature decoding to
32 zero bytes. -/
theorem spec_c2_witness :
    validate_signature [1, 2] "secret"
        "AAAAAAAAAAAAAAAAAAAAAAAAAAAAAAAAAAAAAAAAAAA=" =
      .ok (ctAcc (List.replicate 32 0)
        (hmacSha256 (strBytes "secret") [1, 2]) == 0) ∧
    (validate_signature [1, 2] "secret"
        "AAAAAAAAAAAAAAAAAAAAAAAAAAAAAAAAAAAAAAAAAAA=" = .ok true ↔
      List.replicate 32 0 = hmacSha256 (strBytes "secret") [1, 2]) :=
  spec_c2_decoded_compare [1, 2] "secret"
    "AAAAAAAAAAAAAAAAAAAAAAAAAAAAAAAAAAAAAAAAAAA="
    (List.replicate 32 0) (by decide) (by decide)

/-- Witness for C3 at the spec's concrete malformed signature. -/
theorem spec_c3_witness :
    base64Decode "not-valid-base64!!".data = none ∧
    validate_signature [104, 105] "secret" "not-valid-base64!!" =
      .error .InvalidSignatureFormat :=
  ⟨by decide,
   spec_c3_malformed_rejected.1 [104, 105] "secret" "not-valid-base64!!"
     (by decide)⟩

/-- Witness for C4 at concrete same-length lists with different contents and
different mismatch positions. -/
theorem spec_c4_witness :
    (ctAccSteps [1, 2, 3] [3, 2, 1]).2 = (ctAccSteps [0, 0, 0] [7, 7, 7]).2 ∧
    (ctAccSteps [1, 2, 3] [3, 2, 1]).1 = ctAcc [1, 2, 3] [3, 2, 1] :=
  spec_c4_comparison_constant_time [1, 2, 3] [3, 2, 1] [0, 0, 0] [7, 7, 7]
    (by decide) (by decide)

/-- Witness for C5 at a concrete signature decoding to three bytes. -/
theorem spec_c5_witness :
    validate_signature [104] "secret" "AAAA" = .ok false :=
  spec_c5_length_mismatch_false [104] "secret" "AAAA" [0, 0, 0] (by decide)
    (by rw [hmacSha256_length]; decide)

/-- Witness for C6 at concrete header values: missing header, a well-formed
but short signature, and a malformed signature. -/
theorem spec_c6_witness :
    webhook_handler_auth none [1] "s" = .respond 400 ∧
    webhook_handler_auth (some [65, 65, 65, 65]) [1] "s" = .respond 401 ∧
    webhook_handler_auth (some [33, 33]) [1] "s" = .respond 400 :=
  ⟨(spec_c6_handler_status_mapping [1] "s").1,
   (spec_c6_handler_status_mapping [1] "s").2.1 [65, 65, 65, 65] "AAAA"
     (by decide)
     (validate_of_length_ne [1] "s" "AAAA" [0, 0, 0] (by decide) (by decide)),
   (spec_c6_handler_status_mapping [1] "s").2.2.1 [33, 33] "!!"
     .InvalidSignatureFormat (by decide)
     (validate_of_decode_none [1] "s" "!!" (by decide))⟩

/-- Witness for C7 at the empty payload, empty secret, and a flip of bit 0 of
byte 0. -/
theorem spec_c7_witness :
    validate_signature [] "" (String.mk (base64Encode
      (flipBit (hmacSha256 (strBytes "") []) 0 0))) = .ok false :=
  spec_c7_bit_flip_rejected [] "" 0 0 (by decide) (by decide)

/-- Witness for C9 at the empty key and a concrete valid base64 signature. -/
theorem spec_c9_witness :
    hmacNewFromSlice [] = some [] ∧
    validate_signature [2] "k" "AAAAAAAA" ≠ .error .InvalidKey ∧
    ∃ r, validate_signature [2] "k" "AAAAAAAA" = .ok r :=
  ⟨spec_c9_invalid_key_unreachable.1 [],
   spec_c9_invalid_key_unreachable.2.1 [2] "k" "AAAAAAAA",
   spec_c9_invalid_key_unreachable.2.2 [2] "k" "AAAAAAAA"
     (List.replicate 6 0) (by decide)⟩

/-- Witness for C10 at a concrete six-byte signature and the empty
signature. -/
theorem spec_c10_witness :
    (sha256 []).length = 32 ∧
    validate_signature [5] "x" "AAAAAAAA" = .ok false ∧
    validate_signature [5] "x" "" = .ok false :=
  ⟨spec_c10_wrong_length_false.1 [],
   spec_c10_wrong_length_false.2.1 [5] "x" "AAAAAAAA"
     (List.replicate 6 0) (by decide) (by decide),
   spec_c10_wrong_length_false.2.2 [5] "x"⟩

end LineBotSdk
